import Mathlib

/-!
Shallow embedding of `src/torchdata/modifiers.py` (predicate-gated caching
policies for a dataset-caching layer) and proofs about it.

Python integers are modelled as `Int`.  A Python `float` is a rational
number, and the `float` arithmetic in `_Percent.__init__` is modelled
faithfully: `roundDouble` performs IEEE-754 binary64 round-to-nearest,
ties-to-even at 53 significant bits, and `length * p` is embedded as the
rounded product of the rounded `length` (CPython converts the `int` operand
to a double first) with `p`.  Python exceptions are modelled with
`Except PyError`.  The wrapped cache store (`torchdata.cachers.Cacher`) is
external to the module; it is modelled as an abstract interface `Cacher σ`
over a store state `σ`, and every delegated store call is recorded in an
explicit `StoreOp` trace so that "the store was not queried" is a provable
statement.
-/

set_option autoImplicit false
set_option linter.unusedVariables false

namespace Torchdata

/-- Python exceptions raised by `modifiers.py`:
`IndexError` (from `modifiers[0]` on an empty tuple),
`ValueError` (the validation errors in `_Mix.__init__` and
`_Percent.__init__`), and
`TypeError` (a call with a wrong number of arguments, as in
`modifier.condition()` on line 181/190). -/
inductive PyError where
  | indexError
  | valueError
  | typeError
  deriving DecidableEq, Repr

/-- The concrete (instantiable) modifier classes of the module, plus
`userT parent`: a user-defined subclass of `parent` (the module's docstring
invites users to extend `Modifier`; single inheritance, as in the module
itself).  The abstract classes `Modifier`, `_Mix`, `_Percent`, `_Index` are
not represented: `type(instance)` is never one of them, and no concrete class
of the module is a subclass of another concrete class, so they never occur in
the `isinstance` checks modelled here. -/
inductive Ty where
  | upToIndexT
  | fromIndexT
  | upToPercentageT
  | fromPercentageT
  | indicesT
  | userT (parent : Ty)
  deriving DecidableEq, Repr

/-- `Ty.concrete t` holds when `t` is one of the concrete modifier classes
defined in the module itself (not a user-defined subclass). -/
def Ty.concrete : Ty → Bool
  | .userT _ => false
  | _ => true

/-- Python's `isinstance(x, u)` with `t = type(x)`: `u` is `t` itself or an
ancestor of `t`.  Inside `Ty` the only proper-ancestor edges are
`userT p → p`; the module's own concrete classes are pairwise unrelated. -/
def isinstance : Ty → Ty → Bool
  | t@(.userT p), u => decide (t = u) || isinstance p u
  | t, u => decide (t = u)

/-- A modifier instance that implements `condition` with a one-argument body
(every class of the module except the composites `All`/`Any`, whose
`condition` is modelled separately because of the missing-argument call on
lines 181/190).  The `cacher` reference an instance holds is modelled by a
`Nat` identity.  Constructor fields mirror the attributes the Python
constructors assign:
`UpToIndex`/`FromIndex` store `self.index` (`_Index.__init__`),
`UpToPercentage`/`FromPercentage` store `self.threshold` (`_Percent.__init__`),
`Indices` stores `self.indices`, and a user subclass carries its parent class
and its own `condition` body. -/
inductive Mod where
  | upToIndex (cacher : Nat) (index : Int)
  | fromIndex (cacher : Nat) (index : Int)
  | upToPercentage (cacher : Nat) (threshold : Int)
  | fromPercentage (cacher : Nat) (threshold : Int)
  | indices (cacher : Nat) (idxs : List Int)
  | userSub (parent : Ty) (cacher : Nat) (cond : Int → Bool)

/-- The `self.cacher` reference of a modifier instance. -/
def Mod.cacher : Mod → Nat
  | .upToIndex c _ => c
  | .fromIndex c _ => c
  | .upToPercentage c _ => c
  | .fromPercentage c _ => c
  | .indices c _ => c
  | .userSub _ c _ => c

/-- Python's `type(modifier)`. -/
def typeOf : Mod → Ty
  | .upToIndex _ _ => .upToIndexT
  | .fromIndex _ _ => .fromIndexT
  | .upToPercentage _ _ => .upToPercentageT
  | .fromPercentage _ _ => .fromPercentageT
  | .indices _ _ => .indicesT
  | .userSub p _ _ => .userT p

/-- The `condition(self, index)` bodies, straight from the source:
`UpToIndex.condition`: `index < self.index` (line 263);
`FromIndex.condition`: `index > self.index` (line 272);
`UpToPercentage.condition`: `index < self.threshold` (line 224);
`FromPercentage.condition`: `index > self.threshold` (line 233);
`Indices.condition`: `index in self.indices` (line 292);
a user subclass runs its own body. -/
def Mod.condition : Mod → Int → Bool
  | .upToIndex _ threshold, index => decide (index < threshold)
  | .fromIndex _ threshold, index => decide (threshold < index)
  | .upToPercentage _ threshold, index => decide (index < threshold)
  | .fromPercentage _ threshold, index => decide (threshold < index)
  | .indices _ idxs, index => idxs.contains index
  | .userSub _ _ cond, index => cond index

/-- The external `Cacher` capability interface the module wraps (spec §6):
`contains(index) -> bool`, `get(index) -> value` (`none` models the store
raising for an uncached index), `set(index, value)`, over an abstract store
state `σ`. -/
structure Cacher (σ : Type) where
  containsF : σ → Int → Bool
  getF : σ → Int → Option Int
  setF : σ → Int → Int → σ

/-- One delegated call to the wrapped store; traces of these make store I/O
observable in theorems. -/
inductive StoreOp where
  | containsOp (index : Int)
  | getOp (index : Int)
  | setOp (index : Int) (data : Int)
  deriving DecidableEq, Repr

/-- `Modifier.__contains__` (lines 82-84):
`if self.condition(index): return index in self.cacher` / `return False`.
Returns the boolean result together with the trace of store calls made. -/
def Modifier.containsProxy {σ : Type} (C : Cacher σ) (m : Mod) (s : σ)
    (index : Int) : Bool × List StoreOp :=
  if m.condition index then (C.containsF s index, [StoreOp.containsOp index])
  else (false, [])

/-- `Modifier.__setitem__` (lines 99-100):
`if self.condition(index): self.cacher[index] = data`.
Returns the resulting store state together with the trace of store calls. -/
def Modifier.setItem {σ : Type} (C : Cacher σ) (m : Mod) (s : σ)
    (index : Int) (data : Int) : σ × List StoreOp :=
  if m.condition index then (C.setF s index data, [StoreOp.setOp index data])
  else (s, [])

/-- `Modifier.__getitem__` (line 113): `return self.cacher[index]`,
unconditionally.  Returns the store's answer together with the trace. -/
def Modifier.getItem {σ : Type} (C : Cacher σ) (m : Mod) (s : σ)
    (index : Int) : Option Int × List StoreOp :=
  (C.getF s index, [StoreOp.getOp index])

/-- A Python call `modifier.condition(args...)`: every concrete `condition`
has exactly one parameter besides `self`, so a call with any other number of
arguments raises `TypeError`. -/
def conditionCall (m : Mod) (args : List Int) : Except PyError Bool :=
  match args with
  | [index] => .ok (m.condition index)
  | _ => .error .typeError

/-- Python's `all()` over a generator of fallible evaluations: lazily stops at
the first `False`, propagates the first exception, `True` on exhaustion. -/
def pyAll : List (Except PyError Bool) → Except PyError Bool
  | [] => .ok true
  | .error e :: _ => .error e
  | .ok false :: _ => .ok false
  | .ok true :: rest => pyAll rest

/-- Python's `any()` over a generator of fallible evaluations: lazily stops at
the first `True`, propagates the first exception, `False` on exhaustion. -/
def pyAny : List (Except PyError Bool) → Except PyError Bool
  | [] => .ok false
  | .error e :: _ => .error e
  | .ok true :: _ => .ok true
  | .ok false :: rest => pyAny rest

/-- `All.condition` (lines 180-181):
`return all(modifier.condition() for modifier in self.modifiers)` — note the
source passes NO argument to each child's `condition`, so each child call is
`conditionCall modifier []`; the `index` parameter is received but unused. -/
def All.condition (modifiers : List Mod) (index : Int) : Except PyError Bool :=
  pyAll (modifiers.map (fun modifier => conditionCall modifier []))

/-- `Any.condition` (lines 189-190):
`return any(modifier.condition() for modifier in self.modifiers)` — same
missing-argument child call as `All.condition`. -/
def Any.condition (modifiers : List Mod) (index : Int) : Except PyError Bool :=
  pyAny (modifiers.map (fun modifier => conditionCall modifier []))

/-- The state a successful `_Mix.__init__` leaves behind:
`self.modifiers` and `self.cacher`. -/
structure MixData where
  modifiers : List Mod
  cacher : Nat

/-- `_Mix.__init__` (lines 166-172):
`first_type = type(modifiers[0])` (raises `IndexError` on an empty tuple);
`self.modifiers = modifiers`;
`if not all(isinstance(checker, first_type) for checker in self.modifiers):
raise ValueError(...)`; `self.cacher = modifiers[0].cacher`.
Shared by `All` and `Any`, which add no constructor of their own. -/
def Mix.init (modifiers : List Mod) : Except PyError MixData :=
  match modifiers with
  | [] => .error .indexError
  | first :: _ =>
    if modifiers.all (fun checker => isinstance (typeOf checker) (typeOf first))
    then .ok ⟨modifiers, first.cacher⟩
    else .error .valueError

/-- Python's `int()` applied to a (here: rational) number: truncation toward
zero. -/
def truncQ (q : ℚ) : Int :=
  if 0 ≤ q then ⌊q⌋ else -⌊-q⌋

/-- Round a positive rational to 53 significant bits, to nearest, ties to
even: with `e = ⌊log2 q⌋`, scale `q` into the binade `[2^52, 2^53)`, round
the scaled value to an integer significand (half-way cases to the even
significand), and scale back.  This is IEEE-754 binary64 rounding with an
unbounded exponent range. -/
def roundPos (q : ℚ) : ℚ :=
  let e := Int.log 2 q
  let scaled := q * (2 : ℚ) ^ ((52 : ℤ) - e)
  let lo := ⌊scaled⌋
  let mr : ℤ :=
    if scaled - lo < 1 / 2 then lo
    else if 1 / 2 < scaled - lo then lo + 1
    else if lo % 2 = 0 then lo else lo + 1
  (mr : ℚ) * (2 : ℚ) ^ (e - 52)

/-- The IEEE-754 binary64 rounding function on exact rational values: round
to nearest, ties to even, 53-bit significand, sign-symmetric.  The exponent
range is unbounded, so overflow to infinity (|result| ≥ 2^1024, reachable in
`_Percent.__init__` only for astronomically large `length`) and the reduced
precision of subnormal results (|result| < 2^-1022, where the product of
`length ≥ 0` with `p ∈ (0,1)` lies in `[0,1)` and truncates to threshold `0`
under binary64 rounding and under this model alike) are not represented;
within the normal finite range this is exactly Python's float rounding. -/
def roundDouble (q : ℚ) : ℚ :=
  if q = 0 then 0 else if 0 < q then roundPos q else -roundPos (-q)

/-- `_Percent.__init__` (lines 211-215):
`if not 0 < p < 1: raise ValueError(...)`;
`self.threshold = int(length * p)`; `self.cacher = cacher`.
`p` holds the exact rational value of the `float` argument, and the float
expression `length * p` is the correctly rounded double product of the
double conversion of `length` with `p`; `int()` then truncates toward zero.
Returns the assigned `(cacher, threshold)` pair. -/
def Percent.init (cacher : Nat) (p : ℚ) (length : Int) :
    Except PyError (Nat × Int) :=
  if 0 < p ∧ p < 1 then
    .ok (cacher, truncQ (roundDouble (roundDouble (length : ℚ) * p)))
  else .error .valueError

/-- Constructing `UpToPercentage(cacher, p, length)`: runs `_Percent.__init__`
and yields the instance. -/
def UpToPercentage.init (cacher : Nat) (p : ℚ) (length : Int) :
    Except PyError Mod :=
  (Percent.init cacher p length).map (fun r => Mod.upToPercentage r.1 r.2)

/-- Constructing `FromPercentage(cacher, p, length)`: runs `_Percent.__init__`
and yields the instance. -/
def FromPercentage.init (cacher : Nat) (p : ℚ) (length : Int) :
    Except PyError Mod :=
  (Percent.init cacher p length).map (fun r => Mod.fromPercentage r.1 r.2)

/-- A concrete store implementation over association lists, used to
instantiate the abstract `Cacher` interface in witnesses. -/
def listCacher : Cacher (List (Int × Int)) where
  containsF s i := s.any (fun e => e.1 == i)
  getF s i := (s.find? (fun e => e.1 == i)).map (fun e => e.2)
  setF s i v := (i, v) :: s

/-! ## Helper lemmas -/

theorem isinstance_refl (t : Ty) : isinstance t t = true := by
  cases t <;> simp [isinstance]

theorem isinstance_concrete {t : Ty} (u : Ty) (h : t.concrete = true) :
    isinstance t u = decide (t = u) := by
  cases t <;> simp_all [isinstance, Ty.concrete]

theorem mix_init_cons (first : Mod) (rest : List Mod) :
    Mix.init (first :: rest) =
      if (first :: rest).all
          (fun checker => isinstance (typeOf checker) (typeOf first))
      then .ok ⟨first :: rest, first.cacher⟩
      else .error .valueError := rfl

theorem int_log_eq {r : ℚ} {e : ℤ} (hr : 0 < r) (h1 : (2 : ℚ) ^ e ≤ r)
    (h2 : r < (2 : ℚ) ^ (e + 1)) : Int.log 2 r = e := by
  have hle : e ≤ Int.log 2 r := by
    rw [← Int.zpow_le_iff_le_log one_lt_two hr]
    exact_mod_cast h1
  have hlt : Int.log 2 r < e + 1 := by
    rw [← Int.lt_zpow_iff_log_lt one_lt_two hr]
    exact_mod_cast h2
  omega

theorem roundPos_eq {q : ℚ} (e lo mr : ℤ)
    (hlog : Int.log 2 q = e)
    (hlo : ⌊q * (2 : ℚ) ^ ((52 : ℤ) - e)⌋ = lo)
    (hmr : (if q * (2 : ℚ) ^ ((52 : ℤ) - e) - lo < 1 / 2 then lo
            else if 1 / 2 < q * (2 : ℚ) ^ ((52 : ℤ) - e) - lo then lo + 1
            else if lo % 2 = 0 then lo else lo + 1) = mr) :
    roundPos q = (mr : ℚ) * (2 : ℚ) ^ (e - 52) := by
  rw [roundPos]
  simp only [hlog, hlo, hmr]

theorem roundDouble_pos {q : ℚ} (hq : 0 < q) : roundDouble q = roundPos q := by
  rw [roundDouble, if_neg (ne_of_gt hq), if_pos hq]

theorem roundDouble_1000 : roundDouble (1000 : ℚ) = 1000 := by
  rw [roundDouble_pos (by norm_num),
    roundPos_eq 9 8796093022208000 8796093022208000
      (int_log_eq (by norm_num) (by norm_num) (by norm_num))
      (by rw [Int.floor_eq_iff]; norm_num)
      (by norm_num)]
  norm_num

theorem roundDouble_500 : roundDouble (500 : ℚ) = 500 := by
  rw [roundDouble_pos (by norm_num),
    roundPos_eq 8 8796093022208000 8796093022208000
      (int_log_eq (by norm_num) (by norm_num) (by norm_num))
      (by rw [Int.floor_eq_iff]; norm_num)
      (by norm_num)]
  norm_num

theorem roundDouble_3 : roundDouble (3 : ℚ) = 3 := by
  rw [roundDouble_pos (by norm_num),
    roundPos_eq 1 6755399441055744 6755399441055744
      (int_log_eq (by norm_num) (by norm_num) (by norm_num))
      (by rw [Int.floor_eq_iff]; norm_num)
      (by norm_num)]
  norm_num

theorem roundDouble_almost_one :
    roundDouble (18014398509481983 / 18014398509481984 : ℚ) = 1 := by
  rw [roundDouble_pos (by norm_num),
    roundPos_eq (-1) 9007199254740991 9007199254740992
      (int_log_eq (by norm_num) (by norm_num) (by norm_num))
      (by rw [Int.floor_eq_iff]; norm_num)
      (by norm_num)]
  norm_num

/-! ## Claim theorems -/

/-- Claim C1: the claim says `All.condition(i)` is the AND and
`Any.condition(i)` the OR of the children's `condition(i)`, with
`All(UpToIndex(c,100), UpToIndex(c,50)).condition(30) == True` and
`.condition(75) == False`.  The code instead raises `TypeError` at every
index, because lines 181/190 call each child's `condition()` without the
`index` argument.  This theorem evaluates the embedded code at the claim's
own inputs. -/
theorem all_any_condition_raise_typeError :
    All.condition [Mod.upToIndex 0 100, Mod.upToIndex 0 50] 30
      = .error .typeError ∧
    All.condition [Mod.upToIndex 0 100, Mod.upToIndex 0 50] 75
      = .error .typeError ∧
    Any.condition [Mod.upToIndex 0 100, Mod.upToIndex 0 50] 30
      = .error .typeError :=
  ⟨rfl, rfl, rfl⟩

/-- Claim C2: for every modifier `m` (with a functioning one-argument
`condition`) and index `i`, `m.__contains__(i)` returns
`condition(i) AND cacher.contains(i)`, and when `condition(i)` is false it
returns `False` with an empty store-call trace: the wrapped store's
`contains` is never invoked on the excluded branch. -/
theorem contains_gated_and_no_store_query {σ : Type} (C : Cacher σ)
    (m : Mod) (s : σ) (i : Int) :
    (Modifier.containsProxy C m s i).1 = (m.condition i && C.containsF s i) ∧
    (m.condition i = false → Modifier.containsProxy C m s i = (false, [])) := by
  cases h : m.condition i with
  | false => simp [Modifier.containsProxy, h]
  | true => simp [Modifier.containsProxy, h]

/-- Witness for C2 at a concrete input: `UpToIndex(c, 10)` at index `20` has
a false condition, and `__contains__` returns `False` with no store call. -/
theorem contains_gated_and_no_store_query_witness :
    (Mod.upToIndex 0 10).condition 20 = false ∧
    Modifier.containsProxy listCacher (Mod.upToIndex 0 10) [] 20
      = (false, []) :=
  ⟨by decide,
    (contains_gated_and_no_store_query listCacher (Mod.upToIndex 0 10) [] 20).2
      (by decide)⟩

/-- Claim C4: `m.__setitem__(i, v)` delegates to `cacher.set(i, v)` when
`condition(i)` is true, and when `condition(i)` is false it performs no
operation at all: the store state is returned unchanged, the store-call
trace is empty, and no error is raised (the embedding of `__setitem__` is
total). -/
theorem setItem_gated_frame {σ : Type} (C : Cacher σ) (m : Mod) (s : σ)
    (i v : Int) :
    (m.condition i = true →
      Modifier.setItem C m s i v = (C.setF s i v, [StoreOp.setOp i v])) ∧
    (m.condition i = false → Modifier.setItem C m s i v = (s, [])) := by
  cases h : m.condition i with
  | false => simp [Modifier.setItem, h]
  | true => simp [Modifier.setItem, h]

/-- Witness for C4 at concrete inputs: `UpToIndex(c, 10)` delegates the write
at index `5` and skips it (identical store state, empty trace) at
index `20`. -/
theorem setItem_gated_frame_witness :
    Modifier.setItem listCacher (Mod.upToIndex 0 10) [] 5 42
      = ([(5, 42)], [StoreOp.setOp 5 42]) ∧
    Modifier.setItem listCacher (Mod.upToIndex 0 10) [] 20 42 = ([], []) :=
  ⟨(setItem_gated_frame listCacher (Mod.upToIndex 0 10) [] 5 42).1 (by decide),
    (setItem_gated_frame listCacher (Mod.upToIndex 0 10) [] 20 42).2
      (by decide)⟩

/-- Claim C5: `m.__getitem__(i)` delegates unconditionally to
`cacher.get(i)` and returns its result; the outcome does not depend on the
modifier (hence not on `condition(i)`) at all. -/
theorem getItem_unconditional {σ : Type} (C : Cacher σ) (m : Mod) (s : σ)
    (i : Int) :
    Modifier.getItem C m s i = (C.getF s i, [StoreOp.getOp i]) ∧
    (∀ n : Mod, Modifier.getItem C n s i = Modifier.getItem C m s i) :=
  ⟨rfl, fun _ => rfl⟩

/-- Claim C6: `UpToIndex(cacher, T).condition(i)` is true iff `i < T`
(strict) and `FromIndex(cacher, T).condition(i)` is true iff `i > T`
(strict); at `i = T` both conditions are false, so the threshold index is
excluded by both modifiers. -/
theorem upToIndex_fromIndex_strict (c : Nat) (t i : Int) :
    ((Mod.upToIndex c t).condition i = true ↔ i < t) ∧
    ((Mod.fromIndex c t).condition i = true ↔ t < i) ∧
    (Mod.upToIndex c t).condition t = false ∧
    (Mod.fromIndex c t).condition t = false := by
  refine ⟨?_, ?_, ?_, ?_⟩ <;> simp [Mod.condition]

/-- Claim C10: constructing a composite from an empty list of modifiers
fails inside `_Mix.__init__` with `IndexError` (from `modifiers[0]`), not
with the same-type `ValueError`: the validation check is never reached. -/
theorem mix_init_empty_indexError :
    Mix.init [] = .error .indexError ∧
    PyError.indexError ≠ PyError.valueError :=
  ⟨rfl, by decide⟩

/-- Claim C3: for a non-empty list of modifiers drawn from the module's own
concrete classes (where `isinstance` reduces to type equality, since none of
those classes subclasses another), `_Mix.__init__` raises the validation
`ValueError` exactly when some element's concrete type differs from the first
element's, and otherwise succeeds with the composite's `cacher` being the
first child's `cacher` reference. -/
theorem mix_init_same_type_validation (first : Mod) (rest : List Mod)
    (hconc : ∀ m ∈ first :: rest, (typeOf m).concrete = true) :
    (Mix.init (first :: rest) = .error .valueError ↔
      ∃ m ∈ first :: rest, typeOf m ≠ typeOf first) ∧
    ((∀ m ∈ first :: rest, typeOf m = typeOf first) →
      Mix.init (first :: rest) = .ok ⟨first :: rest, first.cacher⟩) := by
  have key : ((first :: rest).all
        (fun checker => isinstance (typeOf checker) (typeOf first)) = true) ↔
      ∀ m ∈ first :: rest, typeOf m = typeOf first := by
    rw [List.all_eq_true]
    constructor
    · intro h m hm
      have hh := h m hm
      rwa [isinstance_concrete (typeOf first) (hconc m hm),
        decide_eq_true_eq] at hh
    · intro h m hm
      rw [isinstance_concrete (typeOf first) (hconc m hm), decide_eq_true_eq]
      exact h m hm
  by_cases hb : (first :: rest).all
      (fun checker => isinstance (typeOf checker) (typeOf first)) = true
  · rw [mix_init_cons, if_pos hb]
    refine ⟨⟨fun h => Except.noConfusion h, fun hex => ?_⟩, fun _ => rfl⟩
    obtain ⟨m, hm, hne⟩ := hex
    exact absurd (key.mp hb m hm) hne
  · rw [mix_init_cons, if_neg hb]
    refine ⟨⟨fun _ => ?_, fun _ => rfl⟩, fun hall => absurd (key.mpr hall) hb⟩
    have hnall : ¬ ∀ m ∈ first :: rest, typeOf m = typeOf first :=
      fun hall => hb (key.mpr hall)
    push_neg at hnall
    exact hnall

/-- Witness for C3 at the claim's own example:
`All(UpToIndex(c,50), FromIndex(c,100))` mixes two different concrete types
and raises the validation error. -/
theorem mix_init_same_type_validation_witness :
    Mix.init [Mod.upToIndex 0 50, Mod.fromIndex 0 100] = .error .valueError :=
  (mix_init_same_type_validation (Mod.upToIndex 0 50) [Mod.fromIndex 0 100]
      (by decide)).1.mpr
    ⟨Mod.fromIndex 0 100, List.mem_cons_of_mem _ (List.mem_cons_self _ _),
      by decide⟩

/-- Claim C7 counterexample: at `length = 3` and `p = 0.3333333333333333`
(the binary64 double nearest `1/3`, exactly `6004799503160661 / 2^54`), the
exact product `3 * p = 1 - 2^-54` is a rounding tie between `1 - 2^-53` and
`1.0`, resolved to the even significand `1.0`, so the code stores
`threshold = int(1.0) = 1` while the claim's formula `⌊length * p⌋` gives
`0`; accordingly `condition(0)` is `True` although the claim requires it to
be `condition(0) ↔ 0 < ⌊length * p⌋`, which is `False`. -/
theorem percent_threshold_not_floor :
    UpToPercentage.init 0 (6004799503160661 / 18014398509481984 : ℚ) 3
      = .ok (Mod.upToPercentage 0 1) ∧
    ⌊((3 : Int) : ℚ) * (6004799503160661 / 18014398509481984 : ℚ)⌋ = 0 ∧
    (Mod.upToPercentage 0 1).condition 0 = true := by
  have hc : ((3 : Int) : ℚ) = (3 : ℚ) := by norm_num
  have hprod : (3 : ℚ) * (6004799503160661 / 18014398509481984)
      = (18014398509481983 / 18014398509481984 : ℚ) := by norm_num
  refine ⟨?_, ?_, by decide⟩
  · rw [UpToPercentage.init, Percent.init,
      if_pos ⟨by norm_num, by norm_num⟩, hc, roundDouble_3, hprod,
      roundDouble_almost_one]
    have htr : truncQ (1 : ℚ) = 1 := by
      rw [truncQ, if_pos (by norm_num), Int.floor_one]
    rw [htr]
    rfl
  · rw [hc, hprod, Int.floor_eq_iff]
    norm_num

/-- Claim C7 (amended): for `length ≥ 0` and `0 < p < 1`, the percentage
modifiers store `threshold = int(fl(fl(length) * p))` once at construction,
where `fl` is binary64 round-to-nearest-even; whenever the double conversion
of `length` and the double product are exact (hypotheses `hl` and `hp`,
satisfied in particular at the claim's instance `p = 0.5`, `length = 1000`),
the stored threshold equals `⌊length * p⌋`, and then
`UpToPercentage.condition(i)` is true iff `i < threshold` while
`FromPercentage.condition(i)` is true iff `i > threshold`.  Without the
exactness hypotheses the floor formula fails — see the counterexample
above. -/
theorem percent_threshold_and_conditions (c : Nat) (p : ℚ) (length : Int)
    (h0 : 0 ≤ length) (h1 : 0 < p) (h2 : p < 1)
    (hl : roundDouble (length : ℚ) = (length : ℚ))
    (hp : roundDouble ((length : ℚ) * p) = (length : ℚ) * p) :
    UpToPercentage.init c p length
      = .ok (Mod.upToPercentage c ⌊(length : ℚ) * p⌋) ∧
    FromPercentage.init c p length
      = .ok (Mod.fromPercentage c ⌊(length : ℚ) * p⌋) ∧
    (∀ i : Int, (Mod.upToPercentage c ⌊(length : ℚ) * p⌋).condition i = true ↔
      i < ⌊(length : ℚ) * p⌋) ∧
    (∀ i : Int, (Mod.fromPercentage c ⌊(length : ℚ) * p⌋).condition i = true ↔
      ⌊(length : ℚ) * p⌋ < i) := by
  have hnn : (0 : ℚ) ≤ (length : ℚ) * p :=
    mul_nonneg (by exact_mod_cast h0) (le_of_lt h1)
  have htr : truncQ (roundDouble (roundDouble (length : ℚ) * p))
      = ⌊(length : ℚ) * p⌋ := by
    rw [hl, hp, truncQ, if_pos hnn]
  refine ⟨?_, ?_, ?_, ?_⟩
  · rw [UpToPercentage.init, Percent.init, if_pos ⟨h1, h2⟩]
    simp [Except.map, htr]
  · rw [FromPercentage.init, Percent.init, if_pos ⟨h1, h2⟩]
    simp [Except.map, htr]
  · intro i; simp [Mod.condition]
  · intro i; simp [Mod.condition]

/-- Witness for the amended C7 at the claim's own example:
`UpToPercentage(cacher, p=0.5, length=1000)` computes `1000 * 0.5 = 500.0`
exactly in binary64, stores threshold `500`, and its condition is true at
`499` and false at `500`. -/
theorem percent_threshold_and_conditions_witness :
    UpToPercentage.init 0 (1 / 2 : ℚ) 1000 = .ok (Mod.upToPercentage 0 500) ∧
    (Mod.upToPercentage 0 500).condition 499 = true ∧
    (Mod.upToPercentage 0 500).condition 500 = false := by
  have hc : ((1000 : Int) : ℚ) = (1000 : ℚ) := by norm_num
  have hhalf : ((1000 : Int) : ℚ) * (1 / 2) = (500 : ℚ) := by norm_num
  have hl : roundDouble ((1000 : Int) : ℚ) = ((1000 : Int) : ℚ) := by
    rw [hc]; exact roundDouble_1000
  have hp : roundDouble (((1000 : Int) : ℚ) * (1 / 2))
      = ((1000 : Int) : ℚ) * (1 / 2) := by
    rw [hhalf]; exact roundDouble_500
  have hfl : ⌊((1000 : Int) : ℚ) * (1 / 2)⌋ = (500 : Int) := by
    rw [hhalf]
    norm_num
  have h := percent_threshold_and_conditions 0 (1 / 2) 1000
    (by norm_num) (by norm_num) (by norm_num) hl hp
  refine ⟨?_, by decide, by decide⟩
  have h1 := h.1
  rwa [hfl] at h1

/-- Claim C8: constructing `UpToPercentage` or `FromPercentage` raises the
validation `ValueError` if and only if `p` is not strictly between `0` and
`1` (so `p = 0` and `p = 1` are rejected), and succeeds for every `p` with
`0 < p < 1`. -/
theorem percent_init_validation (c : Nat) (p : ℚ) (length : Int) :
    (UpToPercentage.init c p length = .error .valueError ↔ ¬(0 < p ∧ p < 1)) ∧
    (FromPercentage.init c p length = .error .valueError ↔ ¬(0 < p ∧ p < 1)) ∧
    ((∃ m, UpToPercentage.init c p length = .ok m) ↔ (0 < p ∧ p < 1)) ∧
    ((∃ m, FromPercentage.init c p length = .ok m) ↔ (0 < p ∧ p < 1)) := by
  by_cases h : 0 < p ∧ p < 1 <;>
    simp [UpToPercentage.init, FromPercentage.init, Percent.init, h,
      Except.map]

/-- Claim C9: the child-type validation in `_Mix.__init__` uses
`isinstance` against the first child's type, not exact type equality: if
`m2`'s class is a (proper) subclass of `m1`'s class, then `[m1, m2]` is
accepted (with `m1.cacher` adopted), while the reversed list `[m2, m1]` is
rejected with the validation `ValueError` — the check is order-dependent. -/
theorem mix_init_isinstance_order_dependent (m1 m2 : Mod)
    (h1 : isinstance (typeOf m2) (typeOf m1) = true)
    (h2 : isinstance (typeOf m1) (typeOf m2) = false) :
    Mix.init [m1, m2] = .ok ⟨[m1, m2], m1.cacher⟩ ∧
    Mix.init [m2, m1] = .error .valueError := by
  have ha : ([m1, m2].all
      (fun checker => isinstance (typeOf checker) (typeOf m1))) = true := by
    simp [List.all_cons, isinstance_refl, h1]
  have hb : ([m2, m1].all
      (fun checker => isinstance (typeOf checker) (typeOf m2))) = false := by
    simp [List.all_cons, h2]
  exact ⟨by rw [mix_init_cons, if_pos ha], by rw [mix_init_cons, if_neg (by simp [hb])]⟩

/-- Witness for C9: a user-defined subclass of `UpToIndex` after a plain
`UpToIndex` instance is accepted; the reversed order is rejected. -/
theorem mix_init_isinstance_order_dependent_witness :
    Mix.init [Mod.upToIndex 7 100,
        Mod.userSub Ty.upToIndexT 7 (fun i => decide (i < 100))]
      = .ok ⟨[Mod.upToIndex 7 100,
          Mod.userSub Ty.upToIndexT 7 (fun i => decide (i < 100))], 7⟩ ∧
    Mix.init [Mod.userSub Ty.upToIndexT 7 (fun i => decide (i < 100)),
        Mod.upToIndex 7 100]
      = .error .valueError :=
  mix_init_isinstance_order_dependent (Mod.upToIndex 7 100)
    (Mod.userSub Ty.upToIndexT 7 (fun i => decide (i < 100)))
    (by decide) (by decide)

end Torchdata
